import Mathlib

/-!
# Verification of the Testomat.io MCP server core

Shallow embedding of the core of `src/index.js` of the `testomatio/mcp`
repository: the XML escaping and markup formatter, the authenticator and
request executor with their 401-retry behaviour, and the request-body
construction of the create/update test operations. Each claim about the
natural-language specification is settled by a theorem below.

JavaScript strings are modelled as `String`/`List Char`, JSON values as the
inductive `JVal`, JS truthiness and template-literal stringification by
explicit functions, and the network by a response environment indexed by the
number of calls made so far.
-/

namespace TestomatioMCP

/-! ## Single-character global replacement

`s.replace(/c/g, rep)` for a single character `c` and a plain replacement
string substitutes `rep` for every occurrence of `c`. -/

/-- Global replacement of the single character `c` by the string `rep`,
the meaning of the JavaScript `.replace(/c/g, rep)` calls in `escapeXml`. -/
def replaceChar (c : Char) (rep : List Char) : List Char → List Char
  | [] => []
  | a :: as => (if a = c then rep else [a]) ++ replaceChar c rep as

/-! ## escapeXml (src/index.js lines 676-684)

```js
escapeXml(text) {
  if (typeof text !== 'string') return text;
  return text
    .replace(/&/g, '&amp;')
    .replace(/</g, '&lt;')
    .replace(/>/g, '&gt;')
    .replace(/"/g, '&quot;')
    .replace(/'/g, '&#39;');
}
```
-/

/-- The five sequential global replacements of `escapeXml`, on character
lists, applied in the source order: ampersand first, then `<`, `>`, `"`, `'`. -/
def escapeXmlL (s : List Char) : List Char :=
  replaceChar '\'' "&#39;".data
    (replaceChar '"' "&quot;".data
      (replaceChar '>' "&gt;".data
        (replaceChar '<' "&lt;".data
          (replaceChar '&' "&amp;".data s))))

/-- `escapeXml` on the string type, wrapping `escapeXmlL`. -/
def escapeXml (s : String) : String := ⟨escapeXmlL s.data⟩

/-- Character-wise escaping table: each of the five XML-significant
characters maps to its entity, every other character to itself. -/
def escChar (c : Char) : List Char :=
  if c = '&' then "&amp;".data
  else if c = '<' then "&lt;".data
  else if c = '>' then "&gt;".data
  else if c = '"' then "&quot;".data
  else if c = '\'' then "&#39;".data
  else [c]

/-- One-pass character-wise escaping; the reference against which the
sequential-replacement implementation is compared. -/
def escapeCharwise : List Char → List Char
  | [] => []
  | c :: cs => escChar c ++ escapeCharwise cs

/-- Reverse substitution of the five entities, modelled from the spec's
round-trip property (the source has no unescaping function): a left-to-right
scan replacing each of `&amp;`, `&lt;`, `&gt;`, `&quot;`, `&#39;` by the
character it stands for. -/
def unescapeXmlL (l : List Char) : List Char :=
  match l with
  | [] => []
  | c :: cs =>
    if c = '&' then
      if cs.take 4 = ['a', 'm', 'p', ';'] then '&' :: unescapeXmlL (cs.drop 4)
      else if cs.take 3 = ['l', 't', ';'] then '<' :: unescapeXmlL (cs.drop 3)
      else if cs.take 3 = ['g', 't', ';'] then '>' :: unescapeXmlL (cs.drop 3)
      else if cs.take 5 = ['q', 'u', 'o', 't', ';'] then '"' :: unescapeXmlL (cs.drop 5)
      else if cs.take 4 = ['#', '3', '9', ';'] then '\'' :: unescapeXmlL (cs.drop 4)
      else c :: unescapeXmlL cs
    else c :: unescapeXmlL cs
termination_by l.length
decreasing_by
  all_goals simp [List.length_drop]
  all_goals omega

/-- `unescapeXml` on the string type. -/
def unescapeXml (s : String) : String := ⟨unescapeXmlL s.data⟩

/-! ## JavaScript value model

JSON values as handled by the formatter: `null`, booleans, numbers (integral
numbers suffice for the values this program manipulates), strings, arrays and
objects. `undefined` is modelled as `Option.none` at use sites. -/

inductive JVal where
  | null
  | bool (b : Bool)
  | num (n : Int)
  | str (s : String)
  | arr (elems : List JVal)
  | obj (fields : List (String × JVal))

/-- Test for the `null` value. -/
def JVal.isNull : JVal → Bool
  | .null => true
  | _ => false

/-- JavaScript truthiness of a value. -/
def jsTruthy : JVal → Bool
  | .null => false
  | .bool b => b
  | .num n => n != 0
  | .str s => s != ""
  | .arr _ => true
  | .obj _ => true

/-- Truthiness of a possibly-undefined value (`undefined` is falsy). -/
def jsTruthyO : Option JVal → Bool
  | none => false
  | some v => jsTruthy v

/-- The JavaScript `a || b` on a possibly-undefined left operand. -/
def jsOr (a : Option JVal) (b : JVal) : JVal :=
  match a with
  | some v => if jsTruthy v then v else b
  | none => b

/-- The JavaScript `a || b` when both operands are property accesses that may
be undefined (used by `formatModel`'s dual field lookup). -/
def jsOrO (a b : Option JVal) : Option JVal :=
  if jsTruthyO a then a else b

/-- Template-literal stringification of a value, the meaning of a JS
interpolation site. Arrays stringify as their elements joined by commas with
null elements blank; objects as the object placeholder text. -/
def jsToString (v : JVal) : String :=
  match v with
  | .null => "null"
  | .bool b => if b then "true" else "false"
  | .num n => toString n
  | .str s => s
  | .obj _ => "[object Object]"
  | .arr xs =>
      String.intercalate "," (xs.attach.map fun m =>
        if m.val.isNull then "" else jsToString m.val)
decreasing_by
  have := List.sizeOf_lt_of_mem m.property
  simp
  omega

/-- The meaning of `xs.map(g).join('')`: the concatenation of `g` over the
elements in order. -/
def joinMap (g : JVal → String) : List JVal → String
  | [] => ""
  | x :: xs => g x ++ joinMap g xs

/-- The source `escapeXml` as applied to an arbitrary value: strings are
escaped, any non-string value is returned unchanged (`typeof text !==
'string'` guard). -/
def escapeXmlV : JVal → JVal
  | .str s => .str (escapeXml s)
  | v => v

/-- Elements of a value used with `.map` in array position: the embedded
test object's `(obj.tags || []).map(...)` is only exercised on arrays, so a
non-array yields no elements here. -/
def asArr : JVal → List JVal
  | .arr xs => xs
  | _ => []

/-! ## formatValue / formatNestedObject (src/index.js lines 686-734)

`formatValue(value, fieldName)` handles `null`/`undefined`, arrays with the
`tags` / `labels` / `tests-ids` special child tags, nested objects (through
`formatNestedObject`, with the special embedded-test shape), strings through
`escapeXml`, and other primitives through `String(value)`. -/

mutual

/-- `formatValue(value, fieldName)`; `none` is JavaScript `undefined`. -/
def formatValue : Option JVal → String → String
  | none, _ => ""
  | some .null, _ => ""
  | some (.arr xs), fieldName =>
      if fieldName = "tags" then
        joinMap (fun tag => "<tag>" ++ jsToString (escapeXmlV tag) ++ "</tag>") xs
      else if fieldName = "labels" then
        joinMap (fun label => "<label>" ++ jsToString (escapeXmlV label) ++ "</label>") xs
      else if fieldName = "tests-ids" then
        joinMap (fun id => "<test_id>" ++ jsToString id ++ "</test_id>") xs
      else
        joinMap (fun item => "<item>" ++ jsToString (escapeXmlV item) ++ "</item>") xs
  | some (.obj o), fieldName => formatNestedObject o fieldName
  | some (.str s), _ => escapeXml s
  | some (.bool b), _ => jsToString (.bool b)
  | some (.num n), _ => jsToString (.num n)
termination_by v _ => (sizeOf v, 2)

/-- `formatNestedObject(obj, fieldName)`: embedded-test special shape when
the field is `test` and the object has a truthy `id`, otherwise one child
element per key, recursively formatted, joined by the indented separator. -/
def formatNestedObject (o : List (String × JVal)) (fieldName : String) : String :=
  if fieldName = "test" ∧ jsTruthyO (List.lookup "id" o) then
    "\n    <id>" ++ jsToString (jsOr (List.lookup "id" o) (.str "")) ++ "</id>"
      ++ "\n    <title>" ++ jsToString (escapeXmlV (jsOr (List.lookup "title" o) (.str "")))
      ++ "</title>"
      ++ "\n    <priority>" ++ jsToString (jsOr (List.lookup "priority" o) (.str "normal"))
      ++ "</priority>"
      ++ "\n    <tags>"
      ++ joinMap (fun tag => "<tag>" ++ jsToString (escapeXmlV tag) ++ "</tag>")
          (asArr (jsOr (List.lookup "tags" o) (.arr [])))
      ++ "</tags>"
  else
    String.intercalate "\n    " (fmtEntries o)
termination_by (sizeOf o, 1)

/-- The `Object.entries(obj).map(([key, value]) => ...)` body of the generic
object rule. -/
def fmtEntries : List (String × JVal) → List String
  | [] => []
  | (k, v) :: rest =>
      ("<" ++ k ++ ">" ++ formatValue (some v) k ++ "</" ++ k ++ ">") :: fmtEntries rest
termination_by o => (sizeOf o, 0)

end

/-! ## formatModel (src/index.js lines 736-769) -/

/-- The shape `formatModel` reads from an API resource: a root-level `id` and
an attribute object (either may be absent in a malformed response). -/
structure Model where
  id : Option JVal
  attributes : Option JVal

/-- First-occurrence-only character replacement, the meaning of the
JavaScript `.replace('_', '-')` / `.replace('-', '_')` calls with a plain
string pattern. -/
def replaceFirstChar (c d : Char) : List Char → List Char
  | [] => []
  | a :: as => if a = c then d :: as else a :: replaceFirstChar c d as

/-- `s.replace(c, d)` on strings, first occurrence only. -/
def jsReplaceOnce (s : String) (c d : Char) : String := ⟨replaceFirstChar c d s.data⟩

/-- The JavaScript `typeof value === 'object'` test on a possibly-undefined
value: objects, arrays and `null` all have typeof `object`. -/
def typeofObject : Option JVal → Bool
  | some (.obj _) => true
  | some (.arr _) => true
  | some .null => true
  | _ => false

/-- The body of the `fields.forEach` loop of `formatModel`: computes the
value (dual lookup only for names without a hyphen) and the emitted tag name,
formats the value, and renders the line (with the embedded-test special
case). -/
def modelFieldLine (attributes : List (String × JVal)) (field : String) : String :=
  let value :=
    if field.data.contains '-' then List.lookup field attributes
    else jsOrO (List.lookup field attributes)
      (List.lookup (jsReplaceOnce field '_' '-') attributes)
  let xmlFieldName :=
    if field.data.contains '-' then field else jsReplaceOnce field '-' '_'
  let formattedValue := formatValue value field
  if field = "test" ∧ typeofObject value then
    "  <test>" ++ formattedValue ++ "\n  </test>"
  else
    "  <" ++ xmlFieldName ++ ">" ++ formattedValue ++ "</" ++ xmlFieldName ++ ">"

/-- `formatModel(model, tagName, fields)`: opening tag, the root-level `id`
line, one line per projected field, closing tag, joined by newlines. -/
def formatModel (model : Model) (tagName : String) (fields : List String) : String :=
  let attributes := match model.attributes with
    | some (.obj o) => o
    | _ => []
  String.intercalate "\n"
    (("<" ++ tagName ++ ">")
      :: ("  <id>" ++ jsToString (jsOr model.id (.str "")) ++ "</id>")
      :: (fields.map (modelFieldLine attributes)
          ++ ["</" ++ tagName ++ ">"]))

/-! ## Authenticator and Request Executor (src/index.js lines 50-77, 589-673)

The network is modelled as an environment mapping the index of a call (the
number of network calls made so far) to its response. Execution is
single-threaded and sequential, matching the event-loop model of §5 of the
spec for one logical request at a time. The cached credential
`this.jwtToken` is an `Option String` (`none` is the initial `null`). -/

/-- One network response. `jwt` is the `jwt` field of the parsed JSON body
of a login response (`none` when absent); `body` is the parsed JSON of a
resource response; `bodyText` is what `response.text()` yields. -/
structure NetResp where
  ok : Bool
  status : Nat
  statusText : String
  bodyText : String
  jwt : Option String
  body : JVal

/-- The response environment: call index (number of calls already made) to
response. -/
def Env := Nat → NetResp

/-- JS truthiness of an optional string, for `if (this.jwtToken)` and
`if (!data.jwt)`. -/
def jsStrTruthy : Option String → Bool
  | none => false
  | some s => s != ""

/-- The value of an optional string where the source reads it after a
truthiness check. -/
def strOf (o : Option String) : String := o.getD ""

/-- The errors thrown by the core: the spec's `AuthenticationError` for the
two `Authentication failed:` throws of `authenticate`, and its
`ApiRequestError` for the `HTTP status: statusText` throws of the three
request methods (`bodyText` is present exactly when the throw interpolates
`await response.text()`). -/
inductive ReqError where
  | authHttp (status : Nat) (statusText : String) (bodyText : String)
  | authNoJwt
  | apiHttp (status : Nat) (statusText : String) (bodyText : Option String)
deriving DecidableEq

/-- Result of `authenticate()`: the returned credential or the thrown error,
together with the credential slot afterwards and the next call index. -/
inductive AuthResult where
  | ok (jwt : String) (st : Option String) (n : Nat)
  | err (e : ReqError) (st : Option String) (n : Nat)
deriving DecidableEq

/-- `authenticate()` (src/index.js lines 50-77): return the cached
credential when truthy; otherwise one login call, failing on a non-ok status
or a missing/falsy `jwt` field, else caching and returning the token. -/
def authenticate (env : Env) (st : Option String) (n : Nat) : AuthResult :=
  if jsStrTruthy st then .ok (strOf st) st n
  else
    let r := env n
    if !r.ok then .err (.authHttp r.status r.statusText r.bodyText) st (n + 1)
    else if !jsStrTruthy r.jwt then .err .authNoJwt st (n + 1)
    else .ok (strOf r.jwt) r.jwt (n + 1)

/-- Result of a request method: parsed body or thrown error, with the
credential slot and call index afterwards; `outOfFuel` marks executions
whose recursion exceeds the given fuel (the source recursion has no bound of
its own). -/
inductive ReqResult where
  | ok (body : JVal) (st : Option String) (n : Nat)
  | err (e : ReqError) (st : Option String) (n : Nat)
  | outOfFuel

/-- `makeRequest(path, params)` (src/index.js lines 589-625): authenticate,
one GET call; on a non-ok response, when the status is 401 and the
credential slot is truthy, clear the slot and recurse, otherwise throw
`HTTP status: statusText` (no body text). -/
def makeRequest (env : Env) (fuel : Nat) (st : Option String) (n : Nat) : ReqResult :=
  match authenticate env st n with
  | .err e st' n' => .err e st' n'
  | .ok _jwt st' n' =>
    let r := env n'
    if r.ok then .ok r.body st' (n' + 1)
    else if r.status = 401 ∧ jsStrTruthy st' then
      match fuel with
      | 0 => .outOfFuel
      | fuel' + 1 => makeRequest env fuel' none (n' + 1)
    else .err (.apiHttp r.status r.statusText none) st' (n' + 1)

/-- `makePostRequest(path, data)` (src/index.js lines 627-649): same retry
logic as `makeRequest`; the thrown error interpolates the response body
(`HTTP status: statusText; body`). -/
def makePostRequest (env : Env) (fuel : Nat) (st : Option String) (n : Nat) : ReqResult :=
  match authenticate env st n with
  | .err e st' n' => .err e st' n'
  | .ok _jwt st' n' =>
    let r := env n'
    if r.ok then .ok r.body st' (n' + 1)
    else if r.status = 401 ∧ jsStrTruthy st' then
      match fuel with
      | 0 => .outOfFuel
      | fuel' + 1 => makePostRequest env fuel' none (n' + 1)
    else .err (.apiHttp r.status r.statusText (some r.bodyText)) st' (n' + 1)

/-- `makePutRequest(path, data)` (src/index.js lines 651-673): same retry
logic; the thrown error carries only `HTTP status: statusText`, with no body
text. -/
def makePutRequest (env : Env) (fuel : Nat) (st : Option String) (n : Nat) : ReqResult :=
  match authenticate env st n with
  | .err e st' n' => .err e st' n'
  | .ok _jwt st' n' =>
    let r := env n'
    if r.ok then .ok r.body st' (n' + 1)
    else if r.status = 401 ∧ jsStrTruthy st' then
      match fuel with
      | 0 => .outOfFuel
      | fuel' + 1 => makePutRequest env fuel' none (n' + 1)
    else .err (.apiHttp r.status r.statusText none) st' (n' + 1)

/-! ### Concrete response environments used by the claims -/

/-- A 401 response. -/
def resp401 : NetResp :=
  { ok := false, status := 401, statusText := "Unauthorized",
    bodyText := "expired", jwt := none, body := .null }

/-- A successful login response carrying the given token. -/
def respLogin (jwt : String) : NetResp :=
  { ok := true, status := 200, statusText := "OK",
    bodyText := "", jwt := some jwt, body := .null }

/-- A successful resource response. -/
def resp200 : NetResp :=
  { ok := true, status := 200, statusText := "OK",
    bodyText := "", jwt := none, body := .obj [("data", .arr [])] }

/-- A plain server-error response. -/
def resp500 : NetResp :=
  { ok := false, status := 500, statusText := "Internal Server Error",
    bodyText := "boom", jwt := none, body := .null }

/-- Environment for the happy retry path with a cached credential:
GET 401, login ok, GET 200. -/
def envRetryOk : Env
  | 0 => resp401
  | 1 => respLogin "jwt1"
  | _ => resp200

/-- Environment where the retried request fails with 401 once more before
succeeding: GET 401, login ok, GET 401, login ok, GET 200. -/
def envDouble401 : Env
  | 0 => resp401
  | 1 => respLogin "jwt1"
  | 2 => resp401
  | 3 => respLogin "jwt2"
  | _ => resp200

/-- Environment where every resource call yields 401 while every login
succeeds: starting from a cached credential, even call indices are resource
calls and odd ones are logins. -/
def envAll401 : Env :=
  fun n => if n % 2 = 0 then resp401 else respLogin "jwtX"

/-- Environment for a first-ever request (no prior credential): login ok,
GET 401, login ok, GET 200. -/
def envFirst401 : Env
  | 0 => respLogin "jwt1"
  | 1 => resp401
  | 2 => respLogin "jwt2"
  | _ => resp200

/-- Environment for a non-401 failure with a cached credential: the resource
call yields a 500 with body text. -/
def envFail500 : Env
  | _ => resp500

/-- Environment whose login succeeds but returns a body with no `jwt`
field. -/
def envLoginNoJwt : Env
  | _ => { ok := true, status := 200, statusText := "OK",
           bodyText := "{}", jwt := none, body := .null }

/-! ## Tool-layer tag utilities and create/update request bodies

`createTest` / `updateTest` (src/index.js lines 1072-1156) destructure
`suite_id`, `labels_ids` and `fields` out of the arguments and send every
remaining argument as a request attribute with underscores in its key
globally replaced by hyphens, plus a `custom-fields` attribute when `fields`
is truthy. The unit tests also call `extractTagsFromTitle` and `mergeTags`
on the server object, but no such functions exist anywhere in
`src/index.js`; they are modelled from the spec below. -/

/-- Global single-character replacement on a string, the meaning of
`k.replace(/_/g, '-')`. -/
def replaceAllChar (s : String) (c d : Char) : String :=
  ⟨s.data.map fun a => if a = c then d else a⟩

/-- The `data.attributes` object built by `createTest` and `updateTest`:
all arguments except `suite_id`, `labels_ids` and `fields`, with underscores
in keys replaced by hyphens, plus `custom-fields` when `fields` is truthy.
Arguments are modelled as an insertion-ordered association list with unique
keys. -/
def createTestAttributes (args : List (String × JVal)) : List (String × JVal) :=
  let attributes := args.filter fun kv =>
    kv.1 != "suite_id" && kv.1 != "labels_ids" && kv.1 != "fields"
  let mapped := attributes.map fun kv => (replaceAllChar kv.1 '_' '-', kv.2)
  match List.lookup "fields" args with
  | some f => if jsTruthy f then mapped ++ [("custom-fields", f)] else mapped
  | none => mapped

/-- Character class of a tag token: word characters, underscore or hyphen. -/
def isTagChar (c : Char) : Bool := c.isAlphanum || c = '_' || c = '-'

/-- Flush a token accumulator into at most one extracted tag. -/
def flushTag : Option (List Char) → List String
  | none => []
  | some tok => if tok.isEmpty then [] else [String.mk tok]

/-- Modelled from the spec: the token scan of `extractTagsFromTitle`, which
is missing from src/index.js (only the unit tests call it). Scans the title
left to right; `@` opens a token, subsequent word/hyphen/underscore
characters extend it, any other character closes it. -/
def scanTags : Option (List Char) → List Char → List String
  | acc, [] => flushTag acc
  | some tok, c :: rest =>
      if isTagChar c then scanTags (some (tok ++ [c])) rest
      else flushTag (some tok) ++ scanTags (if c = '@' then some [] else none) rest
  | none, c :: rest => scanTags (if c = '@' then some [] else none) rest

/-- First-seen-order deduplication, keeping the first occurrence of each
string. -/
def dedupFirst (seen : List String) : List String → List String
  | [] => []
  | x :: xs =>
      if seen.contains x then dedupFirst seen xs
      else x :: dedupFirst (x :: seen) xs

/-- Modelled from the spec: `extractTagsFromTitle`, missing from
src/index.js — extracts the `@word` tokens of a title as implicit tags,
case-sensitive, deduplicated in first-seen order, tokens may include
hyphens and underscores. -/
def extractTagsFromTitle (title : String) : List String :=
  dedupFirst [] (scanTags none title.data)

/-- Strip one leading `@` from a tag. -/
def stripLeadingAt (s : String) : String :=
  match s.data with
  | '@' :: rest => ⟨rest⟩
  | _ => s

/-- Modelled from the spec: `mergeTags`, missing from src/index.js — the
explicit tags keep their order with any leading `@` stripped, followed by
the extracted tags not already present. -/
def mergeTags (explicitTags extractedTags : List String) : List String :=
  let stripped := explicitTags.map stripLeadingAt
  stripped ++ extractedTags.filter fun t => !stripped.contains t

/-! ## Helper lemmas -/

theorem replaceChar_append (c : Char) (rep l₁ l₂ : List Char) :
    replaceChar c rep (l₁ ++ l₂) = replaceChar c rep l₁ ++ replaceChar c rep l₂ := by
  induction l₁ with
  | nil => rfl
  | cons a as ih => simp [replaceChar, ih]

theorem escapeXmlL_eq_charwise (s : List Char) : escapeXmlL s = escapeCharwise s := by
  induction s with
  | nil => rfl
  | cons a as ih =>
    show escapeXmlL (a :: as) = escChar a ++ escapeCharwise as
    rw [← ih]
    by_cases h1 : a = '&'
    · subst h1
      simp [escapeXmlL, replaceChar, replaceChar_append, escChar]
    · by_cases h2 : a = '<'
      · subst h2
        simp [escapeXmlL, replaceChar, replaceChar_append, escChar]
      · by_cases h3 : a = '>'
        · subst h3
          simp [escapeXmlL, replaceChar, replaceChar_append, escChar]
        · by_cases h4 : a = '"'
          · subst h4
            simp [escapeXmlL, replaceChar, replaceChar_append, escChar]
          · by_cases h5 : a = '\''
            · subst h5
              simp [escapeXmlL, replaceChar, replaceChar_append, escChar]
            · simp [escapeXmlL, replaceChar, replaceChar_append, escChar,
                h1, h2, h3, h4, h5]

theorem unescapeXmlL_cons_ne (c : Char) (rest : List Char) (h : ¬ c = '&') :
    unescapeXmlL (c :: rest) = c :: unescapeXmlL rest := by
  rw [unescapeXmlL]
  simp [h]

theorem unescape_charwise (s : List Char) : unescapeXmlL (escapeCharwise s) = s := by
  induction s with
  | nil => simp [unescapeXmlL, escapeCharwise]
  | cons a as ih =>
    show unescapeXmlL (escChar a ++ escapeCharwise as) = a :: as
    by_cases h1 : a = '&'
    · subst h1
      rw [show escChar '&' = ['&', 'a', 'm', 'p', ';'] from rfl]
      rw [List.cons_append, unescapeXmlL]
      simp [ih]
    · by_cases h2 : a = '<'
      · subst h2
        rw [show escChar '<' = ['&', 'l', 't', ';'] from rfl]
        rw [List.cons_append, unescapeXmlL]
        simp [ih]
      · by_cases h3 : a = '>'
        · subst h3
          rw [show escChar '>' = ['&', 'g', 't', ';'] from rfl]
          rw [List.cons_append, unescapeXmlL]
          simp [ih]
        · by_cases h4 : a = '"'
          · subst h4
            rw [show escChar '"' = ['&', 'q', 'u', 'o', 't', ';'] from rfl]
            rw [List.cons_append, unescapeXmlL]
            simp [ih]
          · by_cases h5 : a = '\''
            · subst h5
              rw [show escChar '\'' = ['&', '#', '3', '9', ';'] from rfl]
              rw [List.cons_append, unescapeXmlL]
              simp [ih]
            · rw [show escChar a ++ escapeCharwise as = a :: escapeCharwise as by
                simp [escChar, h1, h2, h3, h4, h5]]
              rw [unescapeXmlL_cons_ne a _ h1, ih]

theorem jsToString_str (s : String) : jsToString (.str s) = s := by
  rw [jsToString]

theorem formatValue_str (s : String) (f : String) :
    formatValue (some (.str s)) f = escapeXml s := by
  rw [formatValue]

theorem formatValue_arr (xs : List JVal) (f : String) :
    formatValue (some (.arr xs)) f =
      if f = "tags" then
        joinMap (fun tag => "<tag>" ++ jsToString (escapeXmlV tag) ++ "</tag>") xs
      else if f = "labels" then
        joinMap (fun label => "<label>" ++ jsToString (escapeXmlV label) ++ "</label>") xs
      else if f = "tests-ids" then
        joinMap (fun id => "<test_id>" ++ jsToString id ++ "</test_id>") xs
      else
        joinMap (fun item => "<item>" ++ jsToString (escapeXmlV item) ++ "</item>") xs := by
  rw [formatValue]

theorem replaceFirstChar_of_not_mem (c d : Char) (l : List Char) (h : c ∉ l) :
    replaceFirstChar c d l = l := by
  induction l with
  | nil => rfl
  | cons a as ih =>
    simp only [List.mem_cons, not_or] at h
    have ha : ¬ a = c := fun hh => h.1 hh.symm
    simp [replaceFirstChar, ha, ih h.2]

/-- Any successful `authenticate` leaves a truthy credential cached: either
the cached one was returned, or the freshly received token (which passed the
`!data.jwt` check) was stored. This is why the `response.status === 401 &&
this.jwtToken` retry guard can never block a retry. -/
theorem authenticate_ok_truthy (env : Env) (st : Option String) (n : Nat)
    (jwt : String) (st' : Option String) (n' : Nat)
    (h : authenticate env st n = .ok jwt st' n') : jsStrTruthy st' = true := by
  unfold authenticate at h
  by_cases hst : jsStrTruthy st
  · rw [if_pos hst] at h
    cases h
    exact hst
  · rw [if_neg hst] at h
    by_cases hok : (env n).ok
    · simp only [hok, Bool.not_true, Bool.false_eq_true, if_false] at h
      by_cases hjwt : jsStrTruthy (env n).jwt
      · simp only [hjwt, Bool.not_true, Bool.false_eq_true, if_false] at h
        cases h
        exact hjwt
      · simp [hjwt] at h
    · simp [hok] at h

/-! ## Claims -/

/-- C1: the Request Executor is claimed to retry a 401 at most once per
logical request, with exactly 3 network calls in the cached-credential happy
path and no response sequence causing more than one extra attempt. The code
satisfies the 3-call happy path, but the retry guard re-fires on every 401:
a second 401 after the refresh costs 5 calls, and an environment answering
every resource call with 401 (while logins succeed) makes the recursion
exceed any fuel bound — the recursion is unbounded, contradicting the
source's own `retry once` comment. -/
theorem makeRequest_retry_is_unbounded :
    makeRequest envRetryOk 10 (some "jwt0") 0 = .ok resp200.body (some "jwt1") 3
    ∧ makeRequest envDouble401 10 (some "jwt0") 0 = .ok resp200.body (some "jwt2") 5
    ∧ ∀ fuel : Nat, makeRequest envAll401 fuel (some "jwt0") 0 = .outOfFuel := by
  refine ⟨rfl, rfl, ?_⟩
  have key : ∀ fuel n : Nat, n % 2 = 1 → makeRequest envAll401 fuel none n = .outOfFuel := by
    intro fuel
    induction fuel with
    | zero =>
      intro n h1
      have h2 : (n + 1) % 2 = 0 := by omega
      conv_lhs => rw [makeRequest]
      simp [authenticate, envAll401, h1, h2, jsStrTruthy, strOf, respLogin, resp401]
    | succ f ih =>
      intro n h1
      have h2 : (n + 1) % 2 = 0 := by omega
      have step : makeRequest envAll401 (f + 1) none n
          = makeRequest envAll401 f none (n + 1 + 1) := by
        conv_lhs => rw [makeRequest]
        simp [authenticate, envAll401, h1, h2, jsStrTruthy, strOf, respLogin, resp401]
      rw [step]
      exact ih (n + 1 + 1) (by omega)
  intro fuel
  cases fuel with
  | zero => rfl
  | succ f =>
    have step : makeRequest envAll401 (f + 1) (some "jwt0") 0
        = makeRequest envAll401 f none 1 := by
      conv_lhs => rw [makeRequest]
      simp [authenticate, envAll401, jsStrTruthy, strOf, resp401]
    rw [step]
    exact key f 1 (by omega)

/-- C2: the claim says a 401 on the attempt that follows a credential
refresh (no credential cached before the failing call) is not retried and
fails with an `ApiRequestError`. Counterexample: the very first request ever
made (no prior credential) receives a 401 after its fresh login; the code
retries it and the operation succeeds after 4 calls instead of failing. -/
theorem makeRequest_first_call_401_retried :
    makeRequest envFirst401 10 none 0 = .ok resp200.body (some "jwt2") 4
    ∧ makeRequest envFirst401 10 none 0
        ≠ .err (.apiHttp 401 "Unauthorized" none) (some "jwt1") 2 :=
  ⟨rfl, fun h => ReqResult.noConfusion h⟩

/-- C2 (amended): the retry guard reads the credential slot at response
time, and a successful `authenticate` always leaves it truthy, so every 401
received after a successful authentication triggers invalidate-and-retry —
regardless of whether a credential was cached before the call. -/
theorem makeRequest_retries_every_401 (env : Env) (fuel : Nat)
    (st : Option String) (n : Nat) (jwt : String) (st' : Option String) (n' : Nat)
    (hauth : authenticate env st n = .ok jwt st' n')
    (hok : (env n').ok = false) (h401 : (env n').status = 401) :
    jsStrTruthy st' = true
    ∧ makeRequest env (fuel + 1) st n = makeRequest env fuel none (n' + 1) := by
  have htr := authenticate_ok_truthy env st n jwt st' n' hauth
  refine ⟨htr, ?_⟩
  conv_lhs => rw [makeRequest]
  rw [hauth]
  simp [hok, h401, htr]

/-- C2 (witness for the amended theorem): on the first-ever request, the
post-refresh 401 at call index 1 is retried. -/
theorem makeRequest_retries_every_401_witness :
    jsStrTruthy (some "jwt1") = true
    ∧ makeRequest envFirst401 10 none 0 = makeRequest envFirst401 9 none 2 :=
  makeRequest_retries_every_401 envFirst401 9 none 0 "jwt1" (some "jwt1") 1
    rfl rfl rfl

/-- C3: `authenticate()` is caching-idempotent — after a successful call, a
second call returns the identical credential with the same state and makes
no further network call; and a successful call from an empty cache makes
exactly one network call (so two calls from an empty cache make one call in
total). -/
theorem authenticate_idempotent (env : Env) (st : Option String) (n : Nat)
    (jwt : String) (st' : Option String) (n' : Nat)
    (h : authenticate env st n = .ok jwt st' n') :
    authenticate env st' n' = .ok jwt st' n' ∧ (st = none → n' = n + 1) := by
  unfold authenticate at h
  by_cases hst : jsStrTruthy st
  · rw [if_pos hst] at h
    cases h
    constructor
    · unfold authenticate
      rw [if_pos hst]
    · intro hnone
      rw [hnone] at hst
      simp [jsStrTruthy] at hst
  · rw [if_neg hst] at h
    by_cases hok : (env n).ok
    · simp only [hok, Bool.not_true, Bool.false_eq_true, if_false] at h
      by_cases hjwt : jsStrTruthy (env n).jwt
      · simp only [hjwt, Bool.not_true, Bool.false_eq_true, if_false] at h
        cases h
        constructor
        · unfold authenticate
          rw [if_pos hjwt]
        · intro _
          rfl
      · simp [hjwt] at h
    · simp [hok] at h

/-- C3 (witness): a fresh authentication against `envFirst401` caches
`jwt1` after one call; the second call returns the identical value with no
further call. -/
theorem authenticate_idempotent_witness :
    authenticate envFirst401 (some "jwt1") 1 = .ok "jwt1" (some "jwt1") 1
    ∧ ((none : Option String) = none → 1 = 0 + 1) :=
  authenticate_idempotent envFirst401 none 0 "jwt1" (some "jwt1") 1 rfl

/-- C7: a login response with a success status but no (or falsy)
session-token field makes `authenticate()` fail with the malformed-response
`AuthenticationError`, leaving the credential slot exactly as it was (still
empty). -/
theorem authenticate_missing_jwt (env : Env) (st : Option String) (n : Nat)
    (hst : jsStrTruthy st = false) (hok : (env n).ok = true)
    (hjwt : jsStrTruthy (env n).jwt = false) :
    authenticate env st n = .err .authNoJwt st (n + 1) := by
  unfold authenticate
  simp [hst, hok, hjwt]

/-- C7 (witness): a login returning `ok` with no `jwt` field fails with the
malformed-response error and the slot stays `none`. -/
theorem authenticate_missing_jwt_witness :
    authenticate envLoginNoJwt none 0 = .err .authNoJwt none 1 :=
  authenticate_missing_jwt envLoginNoJwt none 0 rfl rfl rfl

/-- C8: the claim says the `ApiRequestError` of a failed POST or PUT carries
the status, the status text and the raw response body text. Counterexample:
for the same 500 response, the POST error carries the body text but the PUT
error does not — `makePutRequest`'s throw interpolates only the status and
status text. -/
theorem makePutRequest_error_drops_body :
    makePutRequest envFail500 10 (some "jwt0") 0
        = .err (.apiHttp 500 "Internal Server Error" none) (some "jwt0") 1
    ∧ makePostRequest envFail500 10 (some "jwt0") 0
        = .err (.apiHttp 500 "Internal Server Error" (some "boom")) (some "jwt0") 1 :=
  ⟨rfl, rfl⟩

/-- C8 (amended): on a non-success, non-401 response, the POST error carries
the status, status text and raw body text, while the PUT error carries only
the status and status text. -/
theorem request_error_payload (env : Env) (fuel : Nat) (st : Option String)
    (n : Nat) (jwt : String) (st' : Option String) (n' : Nat)
    (hauth : authenticate env st n = .ok jwt st' n')
    (hfail : (env n').ok = false) (hn401 : (env n').status ≠ 401) :
    makePostRequest env fuel st n
        = .err (.apiHttp (env n').status (env n').statusText (some (env n').bodyText))
            st' (n' + 1)
    ∧ makePutRequest env fuel st n
        = .err (.apiHttp (env n').status (env n').statusText none) st' (n' + 1) := by
  constructor
  · unfold makePostRequest
    rw [hauth]
    simp [hfail, hn401]
  · unfold makePutRequest
    rw [hauth]
    simp [hfail, hn401]

/-- C8 (witness for the amended theorem): the 500 failure with a cached
credential produces the two error payloads, with and without the body. -/
theorem request_error_payload_witness :
    makePostRequest envFail500 7 (some "jwt0") 0
        = .err (.apiHttp (envFail500 0).status (envFail500 0).statusText
            (some (envFail500 0).bodyText)) (some "jwt0") 1
    ∧ makePutRequest envFail500 7 (some "jwt0") 0
        = .err (.apiHttp (envFail500 0).status (envFail500 0).statusText none)
            (some "jwt0") 1 :=
  request_error_payload envFail500 7 (some "jwt0") 0 "jwt0" (some "jwt0") 0
    rfl rfl (by simp [envFail500, resp500])

/-- C4: `escapeXml` substitutes entities for exactly the five
XML-significant characters — it equals the character-wise map whose table
`escChar` sends each of the five to its entity and fixes every other
character — and the escaping is reversible: reverse-substituting the five
entities in the output reconstructs the original string, for all strings. -/
theorem escapeXml_exactly_five_and_reversible :
    (∀ s : String, escapeXml s = ⟨escapeCharwise s.data⟩)
    ∧ (∀ c : Char, c ∉ ['&', '<', '>', '"', '\''] → escChar c = [c])
    ∧ (∀ s : String, unescapeXml (escapeXml s) = s) := by
  refine ⟨?_, ?_, ?_⟩
  · intro s
    exact congrArg String.mk (escapeXmlL_eq_charwise s.data)
  · intro c hc
    simp only [List.mem_cons, List.mem_singleton, not_or] at hc
    obtain ⟨h1, h2, h3, h4, h5⟩ := hc
    simp [escChar, h1, h2, h3, h4, h5]
  · intro s
    obtain ⟨l⟩ := s
    show String.mk (unescapeXmlL (escapeXmlL l)) = String.mk l
    rw [escapeXmlL_eq_charwise, unescape_charwise]

/-- C4 (witness): the non-special character `x` is fixed by the escaping
table, and a string holding all five special characters round-trips. -/
theorem escapeXml_exactly_five_and_reversible_witness :
    escChar 'x' = ['x'] ∧ unescapeXml (escapeXml "a&b<c>d\"e'f") = "a&b<c>d\"e'f" :=
  ⟨escapeXml_exactly_five_and_reversible.2.1 'x' (by decide),
   escapeXml_exactly_five_and_reversible.2.2 "a&b<c>d\"e'f"⟩

/-- C5: the claim says the element tag emitted for a projected field is the
underscore form of the field name even when the requested name contains
hyphens. Counterexample: projecting `suite-id` emits `<suite-id>456</suite-id>`
with the hyphens kept (exactly what the repository's own unit test expects),
not `<suite_id>456</suite_id>`. -/
theorem formatModel_hyphen_tag_counterexample :
    formatModel ⟨some (.str "123"), some (.obj [("suite-id", .str "456")])⟩
        "test" ["suite-id"]
      = "<test>\n  <id>123</id>\n  <suite-id>456</suite-id>\n</test>"
    ∧ formatModel ⟨some (.str "123"), some (.obj [("suite-id", .str "456")])⟩
        "test" ["suite-id"]
      ≠ "<test>\n  <id>123</id>\n  <suite_id>456</suite_id>\n</test>" := by
  have hfv : formatValue (some (JVal.str "456")) "suite-id" = "456" := by
    rw [formatValue_str]
    rfl
  have h : formatModel ⟨some (.str "123"), some (.obj [("suite-id", .str "456")])⟩
      "test" ["suite-id"]
      = "<test>\n  <id>123</id>\n  <suite-id>456</suite-id>\n</test>" := by
    rw [formatModel]
    simp only [List.map]
    rw [modelFieldLine]
    simp [hfv, jsToString_str, jsOr, jsTruthy]
    rfl
  refine ⟨h, ?_⟩
  rw [h]
  decide

/-- C5 (amended): the emitted element tag is always the literal field name.
For a field name containing a hyphen, the value lookup uses the literal name
only and the tag keeps the hyphens; for a name without hyphens, the lookup
tries the literal name and then its first-underscore-to-hyphen counterpart,
and the hyphen-to-underscore tag rewrite is a no-op. -/
theorem modelFieldLine_literal_tag (attrs : List (String × JVal)) (field : String) :
    (field.data.contains '-' = true →
      modelFieldLine attrs field
        = "  <" ++ field ++ ">" ++ formatValue (List.lookup field attrs) field
            ++ "</" ++ field ++ ">")
    ∧ (field.data.contains '-' = false → field ≠ "test" →
      modelFieldLine attrs field
        = "  <" ++ field ++ ">"
            ++ formatValue (jsOrO (List.lookup field attrs)
                (List.lookup (jsReplaceOnce field '_' '-') attrs)) field
            ++ "</" ++ field ++ ">") := by
  constructor
  · intro hc
    have hmem : '-' ∈ field.data := by
      rcases List.contains_iff_exists_mem_beq.1 hc with ⟨b, hb, hbeq⟩
      have hdb : '-' = b := by simpa using hbeq
      rwa [hdb]
    have hne : field ≠ "test" := by
      intro h
      rw [h] at hc
      simp [List.contains] at hc
    rw [modelFieldLine]
    simp [hmem, hne]
  · intro hc hne
    have hnom : '-' ∉ field.data := by
      intro hmem
      have hc' : field.data.contains '-' = true :=
        List.contains_iff_exists_mem_beq.2 ⟨'-', hmem, by simp⟩
      rw [hc] at hc'
      simp at hc'
    rw [modelFieldLine]
    simp [hnom, hne, jsReplaceOnce, replaceFirstChar_of_not_mem '-' '_' field.data hnom]

/-- C5 (witness for the amended theorem): a hyphenated field keeps its
hyphens in the tag with literal lookup; a plain field uses the dual lookup
with the same literal tag. -/
theorem modelFieldLine_literal_tag_witness :
    modelFieldLine [("suite-id", JVal.str "456")] "suite-id"
      = "  <suite-id>456</suite-id>"
    ∧ modelFieldLine [("title", JVal.str "T")] "title" = "  <title>T</title>" := by
  constructor
  · have h := (modelFieldLine_literal_tag [("suite-id", JVal.str "456")] "suite-id").1 rfl
    rw [h]
    rw [show List.lookup "suite-id" [("suite-id", JVal.str "456")]
        = some (JVal.str "456") from rfl]
    rw [formatValue_str]
    rfl
  · have h := (modelFieldLine_literal_tag [("title", JVal.str "T")] "title").2
      rfl (by decide)
    rw [h]
    rw [show jsOrO (List.lookup "title" [("title", JVal.str "T")])
        (List.lookup (jsReplaceOnce "title" '_' '-') [("title", JVal.str "T")])
        = some (JVal.str "T") from rfl]
    rw [formatValue_str]
    rfl

/-- C6: for array attribute values the formatter emits one child element per
item, in order, with the context-dependent child tag — `tags` arrays emit
`<tag>` children, `labels` arrays `<label>` children, `tests-ids` arrays
`<test_id>` children, and any other field `<item>` children — and the
claimed example `['smoke','regression']` under `tags` yields exactly
`<tag>smoke</tag><tag>regression</tag>` with no `<item>` wrapper. -/
theorem formatValue_array_children (x : JVal) (xs : List JVal) (f : String)
    (hf : f ≠ "tags" ∧ f ≠ "labels" ∧ f ≠ "tests-ids") :
    formatValue (some (.arr (x :: xs))) "tags"
        = "<tag>" ++ jsToString (escapeXmlV x) ++ "</tag>"
            ++ formatValue (some (.arr xs)) "tags"
    ∧ formatValue (some (.arr (x :: xs))) "labels"
        = "<label>" ++ jsToString (escapeXmlV x) ++ "</label>"
            ++ formatValue (some (.arr xs)) "labels"
    ∧ formatValue (some (.arr (x :: xs))) "tests-ids"
        = "<test_id>" ++ jsToString x ++ "</test_id>"
            ++ formatValue (some (.arr xs)) "tests-ids"
    ∧ formatValue (some (.arr (x :: xs))) f
        = "<item>" ++ jsToString (escapeXmlV x) ++ "</item>"
            ++ formatValue (some (.arr xs)) f
    ∧ formatValue (some (.arr [JVal.str "smoke", JVal.str "regression"])) "tags"
        = "<tag>smoke</tag><tag>regression</tag>" := by
  obtain ⟨h1, h2, h3⟩ := hf
  refine ⟨?_, ?_, ?_, ?_, ?_⟩
  · rw [formatValue_arr, formatValue_arr]
    simp [joinMap]
  · rw [formatValue_arr, formatValue_arr]
    simp [joinMap]
  · rw [formatValue_arr, formatValue_arr]
    simp [joinMap]
  · rw [formatValue_arr, formatValue_arr]
    simp [joinMap, h1, h2, h3]
  · rw [formatValue_arr]
    simp [joinMap, escapeXmlV, jsToString_str]
    rfl

/-- C6 (witness): a one-element array under a field with no special name
emits a single `<item>` child. -/
theorem formatValue_array_children_witness :
    formatValue (some (.arr [JVal.str "a"])) "steps"
      = "<item>" ++ jsToString (escapeXmlV (.str "a")) ++ "</item>"
          ++ formatValue (some (.arr [])) "steps" :=
  (formatValue_array_children (.str "a") [] "steps"
    ⟨by decide, by decide, by decide⟩).2.2.2.1

/-- C10: elements of an array under the attribute name `tests-ids` are
interpolated into the `<test_id>` children verbatim, with no XML escaping —
unlike `tags` (and `labels`/generic) arrays, whose elements pass through
`escapeXml`; a string element with XML-significant characters appears
unescaped in the emitted markup. -/
theorem testsIds_children_not_escaped :
    (∀ s : String, formatValue (some (.arr [JVal.str s])) "tests-ids"
        = "<test_id>" ++ s ++ "</test_id>")
    ∧ formatValue (some (.arr [JVal.str "a<b&c"])) "tests-ids"
        = "<test_id>a<b&c</test_id>"
    ∧ formatValue (some (.arr [JVal.str "a<b&c"])) "tags"
        = "<tag>a&lt;b&amp;c</tag>" := by
  have hgen : ∀ s : String, formatValue (some (.arr [JVal.str s])) "tests-ids"
      = "<test_id>" ++ s ++ "</test_id>" := by
    intro s
    rw [formatValue_arr]
    simp [joinMap, jsToString_str]
  refine ⟨hgen, ?_, ?_⟩
  · rw [hgen]
    rfl
  · rw [formatValue_arr]
    simp [joinMap, escapeXmlV, jsToString_str]
    rfl

/-- C9: the spec-modelled tag utilities (absent from src/index.js, called
only by the unit tests) satisfy the claimed extraction and merge behaviour —
including the `['@frontend','backend','@ui'] + ['api']` example — but the
request attributes actually sent by `createTest`/`updateTest` in
src/index.js pass the explicit `tags` argument through unchanged: for the
unit tests' own input, the body carries `['api','regression']` where the
tests (and the claim) expect the merged `['api','regression','smoke']`. -/
theorem createTest_sends_unmerged_tags :
    extractTagsFromTitle "@smoke @regression test with @critical priority"
        = ["smoke", "regression", "critical"]
    ∧ mergeTags ["@frontend", "backend", "@ui"] ["api"]
        = ["frontend", "backend", "ui", "api"]
    ∧ mergeTags ["api", "regression"] (extractTagsFromTitle "@smoke test with both tag types")
        = ["api", "regression", "smoke"]
    ∧ createTestAttributes
        [("suite_id", JVal.str "suite-456"),
         ("title", JVal.str "@smoke test with both tag types"),
         ("tags", JVal.arr [JVal.str "api", JVal.str "regression"])]
        = [("title", JVal.str "@smoke test with both tag types"),
           ("tags", JVal.arr [JVal.str "api", JVal.str "regression"])] :=
  ⟨rfl, rfl, rfl, rfl⟩

end TestomatioMCP
